import Mathlib

/-!
Shallow embedding of `src/src/components/DAppConnection.tsx` from the
Octra-Wallet repository, together with theorems checking the
specification claims about the `DAppConnection` confirmation dialog.

The component is purely presentational: it renders the connection
request, a selectable wallet list, a permission list and two action
buttons, holds a single local boolean `isProcessing`, and emits effects
(callback invocations, toast notifications, console logs).  We model an
event-handler run as the list of effects it performs, in order, and the
rendered markup as a structured value.
-/

namespace Octra

/-- Modelled from the spec: the `Wallet` type is declared in
`src/types/wallet.ts`, which is not among the provided sources.  The
spec describes a Wallet as an account identity with at minimum an
address (string identifier); all further fields are absorbed into
`rest`, so two distinct wallet entries may share an address. -/
structure Wallet where
  address : String
  rest : String
  deriving DecidableEq, Repr

/-- Modelled from the spec: the `DAppConnectionRequest` type is declared
in `src/types/wallet.ts`, which is not among the provided sources.  The
spec describes it as the requesting application with a display name
(optional), an optional icon image reference, an origin string, and an
ordered sequence of requested permission identifier strings. -/
structure DAppConnectionRequest where
  appName : Option String
  appIcon : Option String
  origin : String
  permissions : List String
  deriving DecidableEq, Repr

/-- Severity flag of a toast notification (`variant` field). -/
inductive ToastVariant where
  | default
  | destructive
  deriving DecidableEq, Repr

/-- A toast notification as passed to the `toast` function from
`useToast`. -/
structure Toast where
  title : String
  description : String
  variant : ToastVariant
  deriving DecidableEq, Repr

/-- One observable effect performed by an event handler of the
component: a `setIsProcessing` state update, a call of one of the three
parent-supplied callbacks, a toast notification, or a console message. -/
inductive Effect where
  | setProcessing : Bool → Effect
  | callOnApprove : Wallet → Effect
  | callOnReject : Effect
  | callOnWalletSelect : Wallet → Effect
  | showToast : Toast → Effect
  | consoleLog : String → Effect
  deriving DecidableEq, Repr

/-- The toast shown by `handleApprove` when no wallet is selected. -/
def noWalletToast : Toast :=
  { title := "No Wallet Selected"
    description := "Please select a wallet to connect"
    variant := ToastVariant.destructive }

/-- The toast shown by `handleApprove` when `onApprove` throws. -/
def connectionFailedToast : Toast :=
  { title := "Connection Failed"
    description := "Failed to approve connection"
    variant := ToastVariant.destructive }

/-- Embedding of `handleApprove`.  The parent-supplied `onApprove`
callback is opaque to the component; the boolean `onApproveThrows`
records whether its invocation throws.  The result is the ordered list
of effects the handler performs. -/
def handleApprove (selectedWallet : Option Wallet) (onApproveThrows : Bool) :
    List Effect :=
  match selectedWallet with
  | none => [Effect.showToast noWalletToast]
  | some w =>
      Effect.consoleLog
          ("DAppConnection: Approving connection for wallet: " ++ w.address) ::
        Effect.setProcessing true ::
        Effect.callOnApprove w ::
        (if onApproveThrows then
          [Effect.consoleLog "Connection approval error:",
            Effect.showToast connectionFailedToast,
            Effect.setProcessing false]
        else [])

/-- Embedding of `handleReject`: logs, sets `isProcessing` to `true`,
and calls `onReject`, unconditionally. -/
def handleReject : List Effect :=
  [Effect.consoleLog "DAppConnection: Rejecting connection",
    Effect.setProcessing true,
    Effect.callOnReject]

/-- The wallets passed to `onApprove` along a trace, in order. -/
def approveCalls (tr : List Effect) : List Wallet :=
  tr.filterMap fun e =>
    match e with
    | Effect.callOnApprove w => some w
    | _ => none

/-- The wallets passed to `onWalletSelect` along a trace, in order. -/
def selectCalls (tr : List Effect) : List Wallet :=
  tr.filterMap fun e =>
    match e with
    | Effect.callOnWalletSelect w => some w
    | _ => none

/-- How many times a trace calls `onReject`. -/
def rejectCallCount (tr : List Effect) : Nat :=
  (tr.filter fun e =>
    match e with
    | Effect.callOnReject => true
    | _ => false).length

/-- How many toasts with a given title a trace shows. -/
def toastsWithTitle (tr : List Effect) (t : String) : Nat :=
  (tr.filter fun e =>
    match e with
    | Effect.showToast t0 => t0.title == t
    | _ => false).length

/-- How many toasts of any kind a trace shows. -/
def toastCount (tr : List Effect) : Nat :=
  (tr.filter fun e =>
    match e with
    | Effect.showToast _ => true
    | _ => false).length

/-- How many times a trace sets `isProcessing` to the value `b`. -/
def setProcessingCount (b : Bool) (tr : List Effect) : Nat :=
  (tr.filter fun e =>
    match e with
    | Effect.setProcessing b2 => b2 == b
    | _ => false).length

/-- The value of the `isProcessing` flag after one effect. -/
def stepProcessing (flag : Bool) : Effect → Bool
  | Effect.setProcessing b => b
  | _ => flag

/-- The value of the `isProcessing` flag after running a trace from the
initial value `init`. -/
def runProcessing (init : Bool) (tr : List Effect) : Bool :=
  tr.foldl stepProcessing init

/-- JavaScript `String.prototype.slice(start, stop)`: negative indices
count from the end of the string, indices are clamped to the string
bounds and an empty string results when the normalized start is not
below the normalized stop. -/
def jsSlice (s : String) (start stop : Int) : String :=
  let len : Int := s.toList.length
  let b : Int := if start < 0 then max (len + start) 0 else min start len
  let e : Int := if stop < 0 then max (len + stop) 0 else min stop len
  ((s.toList.drop b.toNat).take (e - b).toNat).asString

/-- Embedding of `truncateAddress`: the JS template literal
`${address.slice(0, 8)}...${address.slice(-6)}` (a one-argument
`slice(-6)` takes the stop index to be the string length). -/
def truncateAddress (address : String) : String :=
  jsSlice address 0 8 ++ "..." ++ jsSlice address (-6) address.toList.length

/-- The lucide icons the component renders. -/
inductive Icon where
  | eye
  | send
  | shield
  | externalLink
  | x
  | check
  deriving DecidableEq, Repr

/-- Embedding of `getPermissionIcon`: a switch on the permission
identifier with a default arm. -/
def getPermissionIcon (permission : String) : Icon :=
  match permission with
  | "view_address" => Icon.eye
  | "view_balance" => Icon.eye
  | "call_methods" => Icon.send
  | _ => Icon.shield

/-- Embedding of `getPermissionDescription`: a switch on the permission
identifier whose default arm returns the identifier itself. -/
def getPermissionDescription (permission : String) : String :=
  match permission with
  | "view_address" => "View the address of your permitted account"
  | "view_balance" => "View the balance of your permitted account"
  | "call_methods" =>
      "Call methods on the smart contract on behalf of your permitted account"
  | _ => permission

/-- JavaScript `a || b` on an optional string `a`: both `undefined` and
the empty string are falsy. -/
def jsOrString (a : Option String) (b : String) : String :=
  match a with
  | some s => if s = "" then b else s
  | none => b

/-- JavaScript `s.charAt(0)`: the first character as a (possibly empty)
string. -/
def charAt0 (s : String) : String :=
  (s.toList.take 1).asString

/-- Does the row for wallet `w` render as selected?  Embeds the JS test
`selectedWallet?.address === wallet.address` (optional chaining on a
null `selectedWallet` yields `undefined`, which is not strictly equal
to any string). -/
def walletIsSelected (selectedWallet : Option Wallet) (w : Wallet) : Bool :=
  match selectedWallet with
  | some sw => sw.address == w.address
  | none => false

/-- One rendered wallet row of the account list. -/
structure WalletRow where
  reactKey : String
  accountLabel : String
  displayedAddress : String
  selectedStyle : Bool
  showsCheck : Bool
  clickTarget : Wallet
  deriving DecidableEq, Repr

/-- One rendered row of the permission list: an icon and a sentence. -/
structure PermissionRow where
  icon : Icon
  text : String
  deriving DecidableEq, Repr

/-- The header glyph: either an avatar with the app icon image and a
fallback character, or the generic application glyph. -/
inductive HeaderGlyph where
  | avatar : String → String → HeaderGlyph
  | genericAppGlyph : HeaderGlyph
  deriving DecidableEq, Repr

/-- The rendered markup of the component, as structured data. -/
structure Rendered where
  headerGlyph : HeaderGlyph
  headerTitle : String
  headerOrigin : String
  walletRows : List WalletRow
  permissionRows : List PermissionRow
  trustWarning : String
  cancelDisabled : Bool
  connectDisabled : Bool
  connectLabel : String
  deriving DecidableEq, Repr

/-- The fixed restriction line always appended to the permission list. -/
def transferRestrictionRow : PermissionRow :=
  { icon := Icon.x
    text := "This does not allow the app to transfer tokens" }

/-- The fixed trust-warning banner below the permission list. -/
def trustWarningText : String :=
  "Only connect to websites you trust. This connection will allow the app to view your account information and request transactions."

/-- Embedding of the JSX returned by `DAppConnection`, as a function of
the props and of the local `isProcessing` state. -/
def DAppConnection (connectionRequest : DAppConnectionRequest)
    (wallets : List Wallet) (selectedWallet : Option Wallet)
    (isProcessing : Bool) : Rendered :=
  { headerGlyph :=
      match connectionRequest.appIcon with
      | some src =>
          HeaderGlyph.avatar src
            (jsOrString (connectionRequest.appName.map charAt0) "A")
      | none => HeaderGlyph.genericAppGlyph
    headerTitle :=
      jsOrString connectionRequest.appName "Unknown App" ++ " wants to connect"
    headerOrigin := connectionRequest.origin
    walletRows :=
      wallets.enum.map fun iw =>
        { reactKey := iw.2.address
          accountLabel := "Account " ++ toString (iw.1 + 1)
          displayedAddress := truncateAddress iw.2.address
          selectedStyle := walletIsSelected selectedWallet iw.2
          showsCheck := walletIsSelected selectedWallet iw.2
          clickTarget := iw.2 }
    permissionRows :=
      (connectionRequest.permissions.map fun p =>
        { icon := getPermissionIcon p, text := getPermissionDescription p })
      ++ [transferRestrictionRow]
    trustWarning := trustWarningText
    cancelDisabled := isProcessing
    connectDisabled := isProcessing || selectedWallet.isNone
    connectLabel := if isProcessing then "Connecting..." else "Connect" }

/-- Clicking a rendered wallet row runs its `onClick` handler
`() => onWalletSelect(wallet)`. -/
def rowClickEffects (r : WalletRow) : List Effect :=
  [Effect.callOnWalletSelect r.clickTarget]

/-- Stated from the spec wording: the first `n` characters of a string
(the whole string when it is shorter than `n`).  Used to compare the
code-side `truncateAddress` with the words of the spec. -/
def firstChars (n : Nat) (s : String) : String :=
  (s.toList.take n).asString

/-- Stated from the spec wording: the last `n` characters of a string
(the whole string when it is shorter than `n`). -/
def lastChars (n : Nat) (s : String) : String :=
  (s.toList.drop (s.toList.length - n)).asString

/-- A concrete connection request used by the witness theorems. -/
def demoRequest : DAppConnectionRequest :=
  { appName := some "Demo"
    appIcon := none
    origin := "https://dapp.example"
    permissions := ["view_address", "custom_scope"] }

/-- A concrete wallet used by the witness theorems. -/
def demoWallet : Wallet :=
  { address := "oct1demoaddress00042", rest := "pub" }

/-- Converting a character list to a string and back is the identity. -/
theorem asString_toList (l : List Char) : (List.asString l).toList = l := rfl

/-- `jsSlice s 0 8` takes the first eight characters. -/
theorem jsSlice_zero_eight (s : String) : jsSlice s 0 8 = firstChars 8 s := by
  unfold jsSlice firstChars
  norm_num
  omega

/-- `jsSlice s (-6) len` takes the last six characters. -/
theorem jsSlice_neg_six (s : String) :
    jsSlice s (-6) s.toList.length = lastChars 6 s := by
  unfold jsSlice lastChars
  norm_num
  have hd : s.data.length = s.length := rfl
  rw [if_neg (by omega : ¬ ((s.length : Int) < 0))]
  rw [(by omega : (((s.length : Int) + -6) ⊔ 0).toNat = s.length - 6)]
  rw [(by omega :
    (((s.length : Int)) - (((s.length : Int) + -6) ⊔ 0)).toNat
      = s.length - (s.length - 6))]
  apply List.take_of_length_le
  rw [List.length_drop]
  omega

/-- `truncateAddress` displays the first eight and the last six
characters around a literal ellipsis. -/
theorem truncateAddress_eq_chars (s : String) :
    truncateAddress s = firstChars 8 s ++ "..." ++ lastChars 6 s := by
  unfold truncateAddress
  rw [jsSlice_zero_eight, jsSlice_neg_six]

/-- Mapping a function of the second component over an enumerated list
is mapping it over the list. -/
theorem enum_map_snd_comp {α β : Type} (l : List α) (f : α → β) :
    l.enum.map (fun iw => f iw.2) = l.map f := by
  rw [show (fun iw : Nat × α => f iw.2) = f ∘ Prod.snd from rfl,
    ← List.map_map, List.enum_map_snd]

/-- Mapping over the rendered wallet rows is mapping over the wallet
list, whenever the function only looks at each row through its
wallet. -/
theorem map_walletRows {β : Type} (cr : DAppConnectionRequest)
    (ws : List Wallet) (sel : Option Wallet) (proc : Bool)
    (f : WalletRow → β) (g : Wallet → β)
    (h : ∀ i w, f { reactKey := w.address,
                    accountLabel := "Account " ++ toString (i + 1),
                    displayedAddress := truncateAddress w.address,
                    selectedStyle := walletIsSelected sel w,
                    showsCheck := walletIsSelected sel w,
                    clickTarget := w } = g w) :
    (DAppConnection cr ws sel proc).walletRows.map f = ws.map g := by
  show (ws.enum.map _).map f = _
  rw [List.map_map]
  rw [show (f ∘ fun iw : Nat × Wallet =>
      ({ reactKey := iw.2.address,
         accountLabel := "Account " ++ toString (iw.1 + 1),
         displayedAddress := truncateAddress iw.2.address,
         selectedStyle := walletIsSelected sel iw.2,
         showsCheck := walletIsSelected sel iw.2,
         clickTarget := iw.2 } : WalletRow)) = fun iw : Nat × Wallet => g iw.2
    from funext fun iw => h iw.1 iw.2]
  exact enum_map_snd_comp ws g

/-- C1: with a selected wallet, the approve action sets the processing
flag to true and then calls `onApprove` exactly once with that wallet
(in that order); if `onApprove` throws, exactly one Connection Failed
error toast is shown and the flag ends up false again; if it does not
throw, the flag stays true and is never reset. -/
theorem handleApprove_selected_spec (w : Wallet) :
    approveCalls (handleApprove (some w) false) = [w]
  ∧ approveCalls (handleApprove (some w) true) = [w]
  ∧ List.Sublist [Effect.setProcessing true, Effect.callOnApprove w]
      (handleApprove (some w) false)
  ∧ List.Sublist [Effect.setProcessing true, Effect.callOnApprove w]
      (handleApprove (some w) true)
  ∧ toastsWithTitle (handleApprove (some w) true) "Connection Failed" = 1
  ∧ toastCount (handleApprove (some w) true) = 1
  ∧ runProcessing false (handleApprove (some w) true) = false
  ∧ toastCount (handleApprove (some w) false) = 0
  ∧ runProcessing false (handleApprove (some w) false) = true
  ∧ setProcessingCount false (handleApprove (some w) false) = 0 := by
  refine ⟨rfl, rfl, ?_, ?_, rfl, rfl, rfl, rfl, rfl, rfl⟩
  · exact List.Sublist.cons _
      (List.Sublist.cons₂ _ (List.Sublist.cons₂ _ List.Sublist.slnil))
  · exact List.Sublist.cons _
      (List.Sublist.cons₂ _ (List.Sublist.cons₂ _ (List.nil_sublist _)))

/-- C2: with no selected wallet, the approve action calls `onApprove`
zero times, shows exactly one toast, which is the No Wallet Selected
warning, changes no state, and in particular never touches the
processing flag. -/
theorem handleApprove_noSelection_spec (b init : Bool) :
    approveCalls (handleApprove none b) = []
  ∧ toastsWithTitle (handleApprove none b) "No Wallet Selected" = 1
  ∧ toastCount (handleApprove none b) = 1
  ∧ runProcessing init (handleApprove none b) = init
  ∧ setProcessingCount true (handleApprove none b) = 0
  ∧ setProcessingCount false (handleApprove none b) = 0 := by
  cases b <;> cases init <;> decide

/-- C3: the reject action sets the processing flag to true and then
calls `onReject` exactly once, unconditionally: it shows no toast,
calls no other callback, and never resets the flag to false. -/
theorem handleReject_spec :
    rejectCallCount handleReject = 1
  ∧ List.Sublist [Effect.setProcessing true, Effect.callOnReject] handleReject
  ∧ runProcessing false handleReject = true
  ∧ toastCount handleReject = 0
  ∧ setProcessingCount false handleReject = 0
  ∧ approveCalls handleReject = [] := by
  refine ⟨rfl, ?_, rfl, rfl, rfl, rfl⟩
  exact List.Sublist.cons _
    (List.Sublist.cons₂ _ (List.Sublist.cons₂ _ List.Sublist.slnil))

/-- C4: the Cancel button is disabled exactly while processing, the
Connect button is disabled while processing or while no wallet is
selected, and hence Connect is enabled precisely when a wallet is
selected and no action is in flight. -/
theorem buttons_disabled_spec (cr : DAppConnectionRequest)
    (ws : List Wallet) (sel : Option Wallet) (proc : Bool) :
    (DAppConnection cr ws sel proc).cancelDisabled = proc
  ∧ (DAppConnection cr ws sel proc).connectDisabled = (proc || sel.isNone)
  ∧ ((DAppConnection cr ws sel proc).connectDisabled = false ↔
      sel.isSome = true ∧ proc = false) := by
  refine ⟨rfl, rfl, ?_⟩
  cases proc <;> cases sel <;> simp [DAppConnection]

/-- C5: the permission icon and description are pure total functions of
the permission identifier: view_address and view_balance map to the eye
icon, call_methods to the send icon, any other identifier to the shield
icon; the three known identifiers map to fixed sentences and any other
identifier describes itself. -/
theorem permission_mapping_spec (p : String) :
    getPermissionIcon "view_address" = Icon.eye
  ∧ getPermissionIcon "view_balance" = Icon.eye
  ∧ getPermissionIcon "call_methods" = Icon.send
  ∧ getPermissionDescription "view_address"
      = "View the address of your permitted account"
  ∧ getPermissionDescription "view_balance"
      = "View the balance of your permitted account"
  ∧ getPermissionDescription "call_methods"
      = "Call methods on the smart contract on behalf of your permitted account"
  ∧ (p ≠ "view_address" ∧ p ≠ "view_balance" ∧ p ≠ "call_methods" →
      getPermissionIcon p = Icon.shield ∧ getPermissionDescription p = p) := by
  refine ⟨rfl, rfl, rfl, rfl, rfl, rfl, ?_⟩
  rintro ⟨h1, h2, h3⟩
  constructor
  · unfold getPermissionIcon
    split <;> simp_all
  · unfold getPermissionDescription
    split <;> simp_all

/-- C5 witness: an unrecognized identifier gets the shield icon and is
its own description. -/
theorem permission_mapping_spec_witness :
    getPermissionIcon "custom_scope" = Icon.shield
  ∧ getPermissionDescription "custom_scope" = "custom_scope" :=
  (permission_mapping_spec "custom_scope").2.2.2.2.2.2
    ⟨by decide, by decide, by decide⟩

/-- C6: every address in the rendered account list is displayed as its
first eight characters, a literal ellipsis, and its last six
characters; in particular the example address displays as
0x123456...345678. -/
theorem address_display_spec (cr : DAppConnectionRequest)
    (ws : List Wallet) (sel : Option Wallet) (proc : Bool) :
    (DAppConnection cr ws sel proc).walletRows.map (fun r => r.displayedAddress)
      = ws.map (fun w => firstChars 8 w.address ++ "..." ++ lastChars 6 w.address)
  ∧ truncateAddress "0x1234567890abcdef1234567890abcdef12345678"
      = "0x123456...345678" := by
  refine ⟨?_, by decide⟩
  exact map_walletRows cr ws sel proc _ _
    (fun i w => truncateAddress_eq_chars w.address)

/-- C7: every render contains the fixed row stating that the app cannot
transfer tokens and the fixed trust-warning banner, for every
connection request, including one with an empty permission list. -/
theorem fixed_lines_spec (cr : DAppConnectionRequest) (ws : List Wallet)
    (sel : Option Wallet) (proc : Bool) :
    transferRestrictionRow ∈ (DAppConnection cr ws sel proc).permissionRows
  ∧ transferRestrictionRow.text = "This does not allow the app to transfer tokens"
  ∧ (DAppConnection cr ws sel proc).trustWarning
      = "Only connect to websites you trust. This connection will allow the app to view your account information and request transactions."
  ∧ (DAppConnection { cr with permissions := [] } ws sel proc).permissionRows
      = [transferRestrictionRow] := by
  refine ⟨?_, rfl, rfl, rfl⟩
  simp [DAppConnection]

/-- C8: clicking any rendered wallet row invokes `onWalletSelect`
exactly once with exactly that row's wallet, for every selection state,
including when the row is already selected. -/
theorem wallet_row_click_spec (cr : DAppConnectionRequest)
    (ws : List Wallet) (sel : Option Wallet) (proc : Bool) :
    (DAppConnection cr ws sel proc).walletRows.map
        (fun r => selectCalls (rowClickEffects r))
      = ws.map (fun w => [w])
  ∧ (DAppConnection cr ws sel proc).walletRows.map rowClickEffects
      = ws.map (fun w => [Effect.callOnWalletSelect w]) := by
  exact ⟨map_walletRows cr ws sel proc _ _ (fun i w => rfl),
    map_walletRows cr ws sel proc _ _ (fun i w => rfl)⟩

/-- C9: `truncateAddress` has no length guard: for every string it is
`slice(0, 8) ++ "..." ++ slice(-6)`, equivalently the first eight and
the last six characters; for every non-empty string shorter than 14
characters those two segments together are longer than the string and
some character position lands in both segments, so characters are
displayed twice; and the empty address displays as exactly the
ellipsis. -/
theorem truncateAddress_no_guard (s t : String) (h1 : t.toList.length ≠ 0)
    (h2 : t.toList.length < 14) :
    truncateAddress s = jsSlice s 0 8 ++ "..." ++ jsSlice s (-6) s.toList.length
  ∧ truncateAddress s = firstChars 8 s ++ "..." ++ lastChars 6 s
  ∧ (firstChars 8 t).toList.length + (lastChars 6 t).toList.length
      > t.toList.length
  ∧ (∃ i, i < 8 ∧ t.toList.length - 6 ≤ i ∧ i < t.toList.length)
  ∧ truncateAddress "" = "..." := by
  refine ⟨rfl, truncateAddress_eq_chars s, ?_, ?_, by decide⟩
  · unfold firstChars lastChars
    rw [asString_toList, asString_toList, List.length_take, List.length_drop]
    omega
  · exact ⟨t.toList.length - 6, by omega, by omega, by omega⟩

/-- C9 witness: a six-character address overflows into both segments,
and the empty address displays as the bare ellipsis. -/
theorem truncateAddress_no_guard_witness :
    (firstChars 8 "0xabcd").toList.length + (lastChars 6 "0xabcd").toList.length
      > "0xabcd".toList.length
  ∧ truncateAddress "" = "..." := by
  have h := truncateAddress_no_guard "0xabcd" "0xabcd" (by decide) (by decide)
  exact ⟨h.2.2.1, h.2.2.2.2⟩

/-- C10: a wallet row renders in the selected style, with the check
mark, exactly when its address string equals the selected wallet's
address; consequently, when two distinct wallet entries share an
address and one of them is selected, both rows render as selected. -/
theorem selected_style_spec (cr : DAppConnectionRequest) (ws : List Wallet)
    (sel : Option Wallet) (proc : Bool) :
    (∀ r ∈ (DAppConnection cr ws sel proc).walletRows,
        (r.selectedStyle = true ↔
          ∃ sw, sel = some sw ∧ sw.address = r.clickTarget.address)
      ∧ r.showsCheck = r.selectedStyle)
  ∧ (∀ w1 w2 : Wallet, w1.address = w2.address →
      (DAppConnection cr [w1, w2] (some w1) proc).walletRows.map
          (fun r => r.selectedStyle)
        = [true, true]) := by
  constructor
  · intro r hr
    obtain ⟨iw, hiw, rfl⟩ := List.mem_map.mp hr
    constructor
    · cases sel with
      | none => simp [walletIsSelected]
      | some sw => simp [walletIsSelected]
    · rfl
  · intro w1 w2 h
    simp [DAppConnection, walletIsSelected, List.enum, List.enumFrom, h]

/-- C10 witness: with two distinct wallet entries sharing one address
and the first entry selected, both rendered rows carry the selected
style. -/
theorem selected_style_spec_witness :
    (DAppConnection
        { appName := some "Demo", appIcon := none,
          origin := "https://dapp.example", permissions := ["view_address"] }
        [{ address := "oct1same", rest := "key1" },
          { address := "oct1same", rest := "key2" }]
        (some { address := "oct1same", rest := "key1" }) false).walletRows.map
      (fun r => r.selectedStyle) = [true, true] :=
  (selected_style_spec
      { appName := some "Demo", appIcon := none,
        origin := "https://dapp.example", permissions := ["view_address"] }
      [{ address := "oct1same", rest := "key1" },
        { address := "oct1same", rest := "key2" }]
      (some { address := "oct1same", rest := "key1" }) false).2
    { address := "oct1same", rest := "key1" }
    { address := "oct1same", rest := "key2" } rfl

/-- C1 witness: at a concrete wallet, a throwing approval calls
`onApprove` once with that wallet and leaves the flag false. -/
theorem handleApprove_selected_spec_witness :
    approveCalls (handleApprove (some demoWallet) true) = [demoWallet]
  ∧ runProcessing false (handleApprove (some demoWallet) true) = false :=
  ⟨(handleApprove_selected_spec demoWallet).2.1,
    (handleApprove_selected_spec demoWallet).2.2.2.2.2.2.1⟩

/-- C2 witness: with no selection, the approve action calls nothing and
shows exactly the warning toast. -/
theorem handleApprove_noSelection_spec_witness :
    approveCalls (handleApprove none true) = []
  ∧ toastsWithTitle (handleApprove none true) "No Wallet Selected" = 1 :=
  ⟨(handleApprove_noSelection_spec true false).1,
    (handleApprove_noSelection_spec true false).2.1⟩

/-- C4 witness: with no selection the Connect button is disabled, and
with a selection and no action in flight it is enabled. -/
theorem buttons_disabled_spec_witness :
    (DAppConnection demoRequest [demoWallet] none false).connectDisabled
      = (false || (none : Option Wallet).isNone)
  ∧ ((DAppConnection demoRequest [demoWallet] (some demoWallet)
        false).connectDisabled = false ↔
      (some demoWallet).isSome = true ∧ false = false) :=
  ⟨(buttons_disabled_spec demoRequest [demoWallet] none false).2.1,
    (buttons_disabled_spec demoRequest [demoWallet] (some demoWallet) false).2.2⟩

/-- C6 witness: the concrete demo render truncates the demo address and
the example address displays as 0x123456...345678. -/
theorem address_display_spec_witness :
    (DAppConnection demoRequest [demoWallet] none false).walletRows.map
        (fun r => r.displayedAddress)
      = [demoWallet].map
          (fun w => firstChars 8 w.address ++ "..." ++ lastChars 6 w.address)
  ∧ truncateAddress "0x1234567890abcdef1234567890abcdef12345678"
      = "0x123456...345678" :=
  address_display_spec demoRequest [demoWallet] none false

/-- C7 witness: the fixed rows are present for a request with an empty
permission list. -/
theorem fixed_lines_spec_witness :
    transferRestrictionRow
      ∈ (DAppConnection demoRequest [] none false).permissionRows
  ∧ transferRestrictionRow.text
      = "This does not allow the app to transfer tokens"
  ∧ (DAppConnection demoRequest [] none false).trustWarning
      = "Only connect to websites you trust. This connection will allow the app to view your account information and request transactions."
  ∧ (DAppConnection { demoRequest with permissions := [] } [] none
      false).permissionRows = [transferRestrictionRow] :=
  fixed_lines_spec demoRequest [] none false

/-- C8 witness: clicking the row of an already selected wallet still
calls `onWalletSelect` once with that wallet. -/
theorem wallet_row_click_spec_witness :
    (DAppConnection demoRequest [demoWallet] (some demoWallet)
        false).walletRows.map (fun r => selectCalls (rowClickEffects r))
      = [demoWallet].map (fun w => [w]) :=
  (wallet_row_click_spec demoRequest [demoWallet] (some demoWallet) false).1

end Octra
